import Mathlib

/-!
Verification of the zzz coordination core: message codec (envelope and
legacy formats), role registry and router, and the durable file store.
Each definition is a shallow embedding of the corresponding Rust item;
the embedding notes name the source file of each group of definitions.

Strings are Lean `String`s; JSON payloads are modelled at the level of
the JSON value tree (the generic text layer of the JSON library is shared
by both decode attempts and is not re-modelled here); numeric JSON values
in this protocol are the unsigned integers of the wire format, modelled
as `Nat` with explicit range checks where the source types are u32/u64.
-/

namespace Zzz

/-! ### Data model: src/src/pane_role.rs, src/src/workflow_phase.rs,
src/src/coordination_message.rs -/

/-- `PaneRole` from src/src/pane_role.rs. -/
inductive PaneRole where
  | Overseer
  | Commander
  | TaskList
  | Review
  | Editor
  deriving DecidableEq, Repr

/-- `PaneId` from zellij (a delivery endpoint tagged terminal/plugin with a
numeric id), as used by the router. -/
inductive PaneId where
  | Terminal (id : Nat)
  | Plugin (id : Nat)
  deriving DecidableEq, Repr

/-- `WorkflowPhase` from src/src/workflow_phase.rs. -/
inductive WorkflowPhase where
  | Initializing
  | PlanningInProgress
  | PlanReady
  | ImplementationInProgress
  | ImplementationComplete
  | ReviewInProgress
  | ReviewComplete
  | Finished
  deriving DecidableEq, Repr

/-- `CoordinationMessage` from src/src/coordination_message.rs.
The source fields `from`/`to` of `PhaseTransition` are reserved words in
Lean and are rendered `fromPhase`/`toPhase`. -/
inductive CoordinationMessage where
  | StartPlanning (task_id : Nat) (task_description : String)
  | PlanReady (todo_file_path : String)
  | StartImplementation
  | TaskCompleted (task_id : String)
  | AllTasksComplete
  | StartReview
  | ReviewComplete (review_file_path : String)
  | PhaseTransition (fromPhase toPhase : WorkflowPhase)
  | FileChanged (file_path : String) (event_type : String)
  deriving DecidableEq, Repr

/-- `MessageEnvelope` from src/src/communication/envelope.rs.
`timestamp` is a u64 number of seconds in the source. -/
structure MessageEnvelope where
  target_pane : Option String
  coordination_message : CoordinationMessage
  sender : String
  timestamp : Nat
  deriving DecidableEq, Repr

/-! ### Name matching: `MessageRouter::match_pane_name_to_role`,
src/src/communication/router.rs lines 154-163. -/

/-- Rust `str::contains(pat)` on character lists: `needle` occurs as a
contiguous substring of `hay`. -/
def containsSub (hay needle : List Char) : Bool :=
  needle.isPrefixOf hay ||
    match hay with
    | [] => false
    | _ :: t => containsSub t needle

/-- Rust `str::to_lowercase` for the ASCII range (the keyword sets and the
pane names exercised by the program are ASCII). -/
def lowercase (s : String) : List Char :=
  s.toList.map Char.toLower

/-- `MessageRouter::match_pane_name_to_role` (router.rs lines 154-163):
lowercase the name, then test the five keyword substrings in the source's
match-arm order. -/
def match_pane_name_to_role (pane_name : String) : Option PaneRole :=
  let name := lowercase pane_name
  if containsSub name ("overseer".toList) then some .Overseer
  else if containsSub name ("commander".toList) then some .Commander
  else if containsSub name ("task list".toList) then some .TaskList
  else if containsSub name ("review".toList) then some .Review
  else if containsSub name ("editor".toList) then some .Editor
  else none

/-! ### Codec: src/src/communication/communication.rs and
src/src/communication/envelope.rs, serialized with serde_json's
externally tagged enum representation. -/

/-- A JSON value tree (the output of serde_json's text layer). Numbers in
this protocol are unsigned integers (u32/u64 on the wire). -/
inductive JsonValue where
  | null
  | bool (b : Bool)
  | num (n : Nat)
  | str (s : String)
  | arr (elems : List JsonValue)
  | obj (fields : List (String × JsonValue))
  deriving Repr

/-- Field access in a JSON object, as serde's map deserializer resolves a
struct field by name. -/
def reqField (fields : List (String × JsonValue)) (name : String) :
    Except String JsonValue :=
  match fields.lookup name with
  | some v => .ok v
  | none => .error ("missing field " ++ name)

/-- serde string deserialization. -/
def decodeString : JsonValue → Except String String
  | .str s => .ok s
  | _ => .error "invalid type: expected a string"

/-- serde u32 deserialization with its range check. -/
def decodeU32 : JsonValue → Except String Nat
  | .num n => if n < 2 ^ 32 then .ok n else .error "integer out of range for u32"
  | _ => .error "invalid type: expected u32"

/-- serde u64 deserialization with its range check. -/
def decodeU64 : JsonValue → Except String Nat
  | .num n => if n < 2 ^ 64 then .ok n else .error "integer out of range for u64"
  | _ => .error "invalid type: expected u64"

/-- serde `Option<String>`: an absent field defaults to `None`, `null` is
`None`, a string is `Some`. -/
def decodeTargetPane : Option JsonValue → Except String (Option String)
  | none => .ok none
  | some .null => .ok none
  | some (.str s) => .ok (some s)
  | some _ => .error "invalid type for field target_pane"

/-- Serialization of `WorkflowPhase` (unit-only enum): the variant name as
a JSON string. -/
def encodePhase : WorkflowPhase → JsonValue
  | .Initializing => .str "Initializing"
  | .PlanningInProgress => .str "PlanningInProgress"
  | .PlanReady => .str "PlanReady"
  | .ImplementationInProgress => .str "ImplementationInProgress"
  | .ImplementationComplete => .str "ImplementationComplete"
  | .ReviewInProgress => .str "ReviewInProgress"
  | .ReviewComplete => .str "ReviewComplete"
  | .Finished => .str "Finished"

/-- Deserialization of `WorkflowPhase`. -/
def decodePhase : JsonValue → Except String WorkflowPhase
  | .str "Initializing" => .ok .Initializing
  | .str "PlanningInProgress" => .ok .PlanningInProgress
  | .str "PlanReady" => .ok .PlanReady
  | .str "ImplementationInProgress" => .ok .ImplementationInProgress
  | .str "ImplementationComplete" => .ok .ImplementationComplete
  | .str "ReviewInProgress" => .ok .ReviewInProgress
  | .str "ReviewComplete" => .ok .ReviewComplete
  | .str "Finished" => .ok .Finished
  | _ => .error "unknown WorkflowPhase variant"

/-- Serialization of `CoordinationMessage`: serde's externally tagged
representation — unit variants as the bare variant-name string, struct
variants as a one-key object keyed by the variant name. -/
def encodeMsg : CoordinationMessage → JsonValue
  | .StartPlanning task_id task_description =>
      .obj [("StartPlanning", .obj [("task_id", .num task_id),
        ("task_description", .str task_description)])]
  | .PlanReady todo_file_path =>
      .obj [("PlanReady", .obj [("todo_file_path", .str todo_file_path)])]
  | .StartImplementation => .str "StartImplementation"
  | .TaskCompleted task_id =>
      .obj [("TaskCompleted", .obj [("task_id", .str task_id)])]
  | .AllTasksComplete => .str "AllTasksComplete"
  | .StartReview => .str "StartReview"
  | .ReviewComplete review_file_path =>
      .obj [("ReviewComplete", .obj [("review_file_path", .str review_file_path)])]
  | .PhaseTransition fromPhase toPhase =>
      .obj [("PhaseTransition", .obj [("from", encodePhase fromPhase),
        ("to", encodePhase toPhase)])]
  | .FileChanged file_path event_type =>
      .obj [("FileChanged", .obj [("file_path", .str file_path),
        ("event_type", .str event_type)])]

/-- Deserialization of `CoordinationMessage` (the legacy wire format of
`parse_incoming_message`, and the payload field of the envelope): a bare
variant-name string for unit variants, a single-key object for struct
variants. -/
def decodeMsg : JsonValue → Except String CoordinationMessage
  | .str "StartImplementation" => .ok .StartImplementation
  | .str "AllTasksComplete" => .ok .AllTasksComplete
  | .str "StartReview" => .ok .StartReview
  | .obj [("StartPlanning", .obj fields)] =>
      (reqField fields "task_id").bind fun tj =>
      (decodeU32 tj).bind fun task_id =>
      (reqField fields "task_description").bind fun dj =>
      (decodeString dj).map fun task_description =>
      .StartPlanning task_id task_description
  | .obj [("PlanReady", .obj fields)] =>
      (reqField fields "todo_file_path").bind fun pj =>
      (decodeString pj).map fun todo_file_path =>
      .PlanReady todo_file_path
  | .obj [("TaskCompleted", .obj fields)] =>
      (reqField fields "task_id").bind fun tj =>
      (decodeString tj).map fun task_id =>
      .TaskCompleted task_id
  | .obj [("ReviewComplete", .obj fields)] =>
      (reqField fields "review_file_path").bind fun rj =>
      (decodeString rj).map fun review_file_path =>
      .ReviewComplete review_file_path
  | .obj [("PhaseTransition", .obj fields)] =>
      (reqField fields "from").bind fun fj =>
      (decodePhase fj).bind fun fromPhase =>
      (reqField fields "to").bind fun tj =>
      (decodePhase tj).map fun toPhase =>
      .PhaseTransition fromPhase toPhase
  | .obj [("FileChanged", .obj fields)] =>
      (reqField fields "file_path").bind fun fj =>
      (decodeString fj).bind fun file_path =>
      (reqField fields "event_type").bind fun ej =>
      (decodeString ej).map fun event_type =>
      .FileChanged file_path event_type
  | _ => .error "invalid CoordinationMessage"

/-- Serialization of `MessageEnvelope` (`Communication::send_pipe_message`,
communication.rs lines 23-32): a four-field object in struct declaration
order. -/
def encodeEnvelope (e : MessageEnvelope) : JsonValue :=
  .obj [("target_pane", match e.target_pane with
          | some t => .str t
          | none => .null),
        ("coordination_message", encodeMsg e.coordination_message),
        ("sender", .str e.sender),
        ("timestamp", .num e.timestamp)]

/-- Deserialization of `MessageEnvelope` (the first attempt of
`parse_incoming_message`). -/
def decodeEnvelope (j : JsonValue) : Except String MessageEnvelope :=
  match j with
  | .obj fields =>
      (decodeTargetPane (fields.lookup "target_pane")).bind fun target_pane =>
      (reqField fields "coordination_message").bind fun cj =>
      (decodeMsg cj).bind fun coordination_message =>
      (reqField fields "sender").bind fun sj =>
      (decodeString sj).bind fun sender =>
      (reqField fields "timestamp").bind fun tj =>
      (decodeU64 tj).map fun timestamp =>
      { target_pane := target_pane, coordination_message := coordination_message,
        sender := sender, timestamp := timestamp }
  | _ => .error "invalid type: expected MessageEnvelope"

/-- `ParsedMessage` from src/src/communication/communication.rs. -/
inductive ParsedMessage where
  | Envelope (envelope : MessageEnvelope)
  | Legacy (message : CoordinationMessage)
  deriving DecidableEq, Repr

/-- `Communication::parse_incoming_message` (communication.rs lines 35-48):
try the envelope format, fall back to the legacy format, and on failure of
both re-run the envelope parse and return its error (the source's
`unwrap_err` of the repeated first attempt). -/
def parse_incoming_message (payload : JsonValue) : Except String ParsedMessage :=
  match decodeEnvelope payload with
  | .ok envelope => .ok (.Envelope envelope)
  | .error _ =>
    match decodeMsg payload with
    | .ok message => .ok (.Legacy message)
    | .error _ =>
      match decodeEnvelope payload with
      | .error e => .error e
      | .ok envelope => .ok (.Envelope envelope)

/-- The source-type ranges of the numeric fields carried by a
`CoordinationMessage` (`task_id: u32` in `StartPlanning`). -/
def ValidMsg : CoordinationMessage → Prop
  | .StartPlanning task_id _ => task_id < 2 ^ 32
  | _ => True

/-- A `MessageEnvelope` whose numeric fields fit their source types
(`timestamp: u64`). -/
def ValidEnvelope (e : MessageEnvelope) : Prop :=
  ValidMsg e.coordination_message ∧ e.timestamp < 2 ^ 64

/-! ### Registry and router: src/src/communication/router.rs and
src/src/communication/error.rs. The zellij service boundary is modelled
by recording the writes a call performs: `write_chars_to_pane_id` appends
one `(payload, pane)` pair, exactly as the recording test service does. -/

/-- `CommunicationError` from src/src/communication/error.rs. The payload
of `SerializationError` is the JSON library's error text. -/
inductive CommunicationError where
  | SerializationError (cause : String)
  | MessageDeliveryFailed (detail : String)
  | InvalidTarget (detail : String)
  | PaneNotFound (role : PaneRole)
  | PaneDiscoveryFailed (detail : String)
  deriving DecidableEq, Repr

/-- The router's `pane_registry: HashMap<PaneRole, PaneId>`, modelled by its
lookup function. -/
def Registry : Type := PaneRole → Option PaneId

/-- A `HashMap` just created or cleared. -/
def emptyRegistry : Registry := fun _ => none

/-- `HashMap::insert`: unconditional upsert. -/
def registryInsert (reg : Registry) (role : PaneRole) (pane_id : PaneId) :
    Registry :=
  fun r => if r = role then some pane_id else reg r

/-- One pane of the zellij `PaneManifest`: the fields of `PaneInfo` the
router reads (id, title, is_plugin). -/
structure PaneInfo where
  id : Nat
  title : String
  is_plugin : Bool

/-- The `PaneId` the router constructs for a matched pane
(router.rs lines 42-46). -/
def paneIdOf (p : PaneInfo) : PaneId :=
  if p.is_plugin then .Plugin p.id else .Terminal p.id

/-- The body of the discovery loop for one pane (router.rs lines 38-52):
a matching title registers the pane and bumps `discovered_panes`. -/
def discoverPane (acc : Registry × Nat) (p : PaneInfo) : Registry × Nat :=
  match match_pane_name_to_role p.title with
  | some role => (registryInsert acc.1 role (paneIdOf p), acc.2 + 1)
  | none => acc

/-- `MessageRouter::discover_panes_with_manifest` (router.rs lines 27-62):
clear the registry (the `reg` argument — the registry held before the call —
is discarded), scan every pane of every tab, and fail with
`PaneDiscoveryFailed` when no pane matched. The manifest is the list of
per-tab pane lists, in the hash map's value iteration order. -/
def discover_panes_with_manifest (reg : Registry)
    (pane_manifest : List (List PaneInfo)) :
    Except CommunicationError Unit × Registry :=
  let _ := reg
  let scanned : Registry × Nat :=
    pane_manifest.foldl (fun acc panes => panes.foldl discoverPane acc)
      (emptyRegistry, 0)
  if scanned.2 = 0 then
    (.error (.PaneDiscoveryFailed "No matching panes found in current layout"),
      scanned.1)
  else
    (.ok (), scanned.1)

/-- `MessageRouter::route_message_to_role` (router.rs lines 75-94): look up
the role, serialize the message, write it to the pane. The second component
records the boundary writes the call performs. -/
def route_message_to_role (reg : Registry) (message : CoordinationMessage)
    (target_role : PaneRole) :
    Except CommunicationError Unit × List (JsonValue × PaneId) :=
  match reg target_role with
  | none => (.error (.PaneNotFound target_role), [])
  | some pane_id => (.ok (), [(encodeMsg message, pane_id)])

/-- `MessageRouter::route_message_to_roles` (router.rs lines 114-126):
attempt each role in input order, pairing each with its own outcome; the
recorded writes accumulate across the roles. -/
def route_message_to_roles (reg : Registry) (message : CoordinationMessage)
    (target_roles : List PaneRole) :
    List (PaneRole × Except CommunicationError Unit) × List (JsonValue × PaneId) :=
  match target_roles with
  | [] => ([], [])
  | role :: rest =>
    let this := route_message_to_role reg message role
    let others := route_message_to_roles reg message rest
    ((role, this.1) :: others.1, this.2 ++ others.2)

/-! ### Durable store: src/src/file_system.rs. -/

/-- `io::ErrorKind` values distinguished by the store (file_system.rs
lines 15-23 and 121-124); `Other` stands for every remaining kind. -/
inductive IoErrorKind where
  | NotFound
  | PermissionDenied
  | WouldBlock
  | Interrupted
  | Other
  deriving DecidableEq, Repr

/-- `FileSystemError` from src/src/file_system.rs lines 7-13. -/
inductive FileSystemError where
  | Io (kind : IoErrorKind)
  | Timeout
  | PermissionDenied
  | ConcurrentAccess
  deriving DecidableEq, Repr

/-- `From<io::Error> for FileSystemError` (file_system.rs lines 15-23). -/
def fromIoErrorKind : IoErrorKind → FileSystemError
  | .PermissionDenied => .PermissionDenied
  | .WouldBlock => .ConcurrentAccess
  | k => .Io k

/-- `FileSystem::MAX_RETRIES`. -/
def MAX_RETRIES : Nat := 3

/-- `FileSystem::RETRY_DELAY` in milliseconds. -/
def RETRY_DELAY : Nat := 50

/-- `FileSystem::OPERATION_TIMEOUT` in milliseconds. -/
def OPERATION_TIMEOUT : Nat := 5000

/-- The two guarded retry arms of `with_retry` (file_system.rs lines
116-128): `ConcurrentAccess`, and `Io` of an interrupted operation; every
other error falls to the terminal arm. -/
def retryable : FileSystemError → Bool
  | .ConcurrentAccess => true
  | .Io kind => kind == .Interrupted
  | _ => false

/-- The loop of `FileSystem::with_retry` (file_system.rs lines 102-132).
The mutable closure is modelled as `operation k`, the outcome of its k-th
call; `attempt` and `elapsed` are the source's counter and the wall-clock
time consumed by the sleeps so far (the filesystem calls themselves are
instantaneous in this model). Returns the result, the number of calls made,
and the list of sleep durations in milliseconds. -/
def with_retry_go {α : Type} (operation : Nat → Except FileSystemError α)
    (attempt elapsed : Nat) :
    Except FileSystemError α × Nat × List Nat :=
  if OPERATION_TIMEOUT < elapsed then (.error .Timeout, 0, [])
  else
    match operation attempt with
    | .ok result => (.ok result, 1, [])
    | .error e =>
      if h : retryable e = true ∧ attempt < MAX_RETRIES then
        let d := RETRY_DELAY * (attempt + 1)
        let rest := with_retry_go operation (attempt + 1) (elapsed + d)
        (rest.1, rest.2.1 + 1, d :: rest.2.2)
      else
        (.error e, 1, [])
termination_by MAX_RETRIES - attempt
decreasing_by omega

/-- `FileSystem::with_retry`: the loop started at attempt 0, elapsed 0. -/
def with_retry {α : Type} (operation : Nat → Except FileSystemError α) :
    Except FileSystemError α × Nat × List Nat :=
  with_retry_go operation 0 0

/-- `Path::join` with a relative component. -/
def pathJoin (base child : String) : String :=
  base ++ "/" ++ child

/-- `FileSystem::get_task_directory_path` (file_system.rs lines 142-144):
`PathBuf::from("/host/.zzz").join(format!("task-{}", task_id))`. -/
def get_task_directory_path (task_id : Nat) : String :=
  pathJoin "/host/.zzz" ("task-" ++ toString task_id)

/-- `FileSystem::get_todo_list_path`. -/
def get_todo_list_path (task_id : Nat) : String :=
  pathJoin (get_task_directory_path task_id) "todo-list.md"

/-- `FileSystem::get_review_path`. -/
def get_review_path (task_id : Nat) : String :=
  pathJoin (get_task_directory_path task_id) "review.md"

/-- `FileSystem::get_plan_path`. -/
def get_plan_path (task_id : Nat) : String :=
  pathJoin (get_task_directory_path task_id) "plan.md"

/-- `FileSystem::get_logs_dir_path`. -/
def get_logs_dir_path (task_id : Nat) : String :=
  pathJoin (get_task_directory_path task_id) "logs"

/-- `FileSystem::get_overseer_log_path`. -/
def get_overseer_log_path (task_id : Nat) : String :=
  pathJoin (get_logs_dir_path task_id) "overseer.log"

/-- `FileSystem::get_commander_log_path`. -/
def get_commander_log_path (task_id : Nat) : String :=
  pathJoin (get_logs_dir_path task_id) "commander.log"

/-- `FileSystem::get_coordinator_log_path`. -/
def get_coordinator_log_path (task_id : Nat) : String :=
  pathJoin (get_logs_dir_path task_id) "coordinator.log"

/-- The final path component (after the last separator); paths the store
forms end in a file name, not a separator. -/
def fileNameOf (p : List Char) : List Char :=
  (p.reverse.takeWhile (fun c => c ≠ '/')).reverse

/-- The leading part of the path up to and including the last separator. -/
def dirPartOf (p : List Char) : List Char :=
  p.take (p.length - (fileNameOf p).length)

/-- Rust `Path::file_stem` on a file name: the part before the last dot,
except that a name with no dot, or whose only dot leads it, is its own
stem. -/
def stemOf (name : List Char) : List Char :=
  let extLen := (name.reverse.takeWhile (fun c => c ≠ '.')).length
  if extLen + 2 ≤ name.length then name.take (name.length - (extLen + 1))
  else name

/-- Rust `Path::with_extension`: replace (not append) the extension of the
final component; a nonempty new extension is attached to the stem with a
dot. -/
def with_extension (p ext : String) : String :=
  let chars := p.toList
  let name := fileNameOf chars
  let newName := if ext.isEmpty then stemOf name
    else stemOf name ++ '.' :: ext.toList
  String.mk (dirPartOf chars ++ newName)

/-- The contents of the directory entries touched by the store: each path
maps to the bytes of the regular file there, if any. -/
def FileState : Type := String → Option String

/-- The success path of `FileSystem::write_file_atomic` (file_system.rs
lines 39-57): write `content` to the sibling temporary path
(`path.with_extension("tmp")`), then rename the temporary file over
`path`. -/
def write_file_atomic (fs : FileState) (path content : String) : FileState :=
  let temp_path := with_extension path "tmp"
  let afterWrite : FileState := fun q => if q = temp_path then some content else fs q
  fun q =>
    if q = path then afterWrite temp_path
    else if q = temp_path then none
    else afterWrite q

/-- The success/not-found behavior of `FileSystem::read_file_safe`
(file_system.rs lines 60-64): read the file at `path`. -/
def read_file_safe (fs : FileState) (path : String) : Except FileSystemError String :=
  match fs path with
  | some content => .ok content
  | none => .error (.Io .NotFound)

end Zzz

-- ===== theorems =====

namespace Zzz

/-- `containsSub` agrees with the mathematical substring relation. -/
theorem containsSub_iff (hay needle : List Char) :
    containsSub hay needle = true ↔ needle <:+: hay := by
  induction hay with
  | nil =>
    cases needle <;> simp [containsSub, List.infix_nil]
  | cons a t ih =>
    rw [containsSub]
    simp only [Bool.or_eq_true, ih]
    rw [List.infix_cons_iff]
    constructor
    · rintro (h | h)
      · exact Or.inl (by simpa using h)
      · exact Or.inr h
    · rintro (h | h)
      · exact Or.inl (by simpa using h)
      · exact Or.inr h

/-- Claim C1, counterexample: the claim says each of the spelling variants
"tasklist", "task-list" and "task_list" maps to the TaskList role, but
`match_pane_name_to_role` matches only the spaced spelling "task list" and
yields none for the other three. -/
theorem c1_spelling_variants_counterexample :
    match_pane_name_to_role "tasklist" = none ∧
    match_pane_name_to_role "task-list" = none ∧
    match_pane_name_to_role "task_list" = none ∧
    match_pane_name_to_role "task list" = some .TaskList := by
  decide

/-- Claim C1 as amended: `match_pane_name_to_role` performs a
case-insensitive substring match in the fixed priority order overseer,
commander, "task list", review, editor; of the task-list spellings only the
spaced "task list" maps to the TaskList role; a name matching no keyword
yields none. -/
theorem c1_match_name_priority_order (name : String) :
    (match_pane_name_to_role name = some .Overseer ↔
      "overseer".toList <:+: lowercase name) ∧
    (match_pane_name_to_role name = some .Commander ↔
      ¬ "overseer".toList <:+: lowercase name ∧
      "commander".toList <:+: lowercase name) ∧
    (match_pane_name_to_role name = some .TaskList ↔
      ¬ "overseer".toList <:+: lowercase name ∧
      ¬ "commander".toList <:+: lowercase name ∧
      "task list".toList <:+: lowercase name) ∧
    (match_pane_name_to_role name = some .Review ↔
      ¬ "overseer".toList <:+: lowercase name ∧
      ¬ "commander".toList <:+: lowercase name ∧
      ¬ "task list".toList <:+: lowercase name ∧
      "review".toList <:+: lowercase name) ∧
    (match_pane_name_to_role name = some .Editor ↔
      ¬ "overseer".toList <:+: lowercase name ∧
      ¬ "commander".toList <:+: lowercase name ∧
      ¬ "task list".toList <:+: lowercase name ∧
      ¬ "review".toList <:+: lowercase name ∧
      "editor".toList <:+: lowercase name) ∧
    (match_pane_name_to_role name = none ↔
      ¬ "overseer".toList <:+: lowercase name ∧
      ¬ "commander".toList <:+: lowercase name ∧
      ¬ "task list".toList <:+: lowercase name ∧
      ¬ "review".toList <:+: lowercase name ∧
      ¬ "editor".toList <:+: lowercase name) := by
  simp only [← containsSub_iff, match_pane_name_to_role]
  generalize containsSub (lowercase name) ("overseer".toList) = b1
  generalize containsSub (lowercase name) ("commander".toList) = b2
  generalize containsSub (lowercase name) ("task list".toList) = b3
  generalize containsSub (lowercase name) ("review".toList) = b4
  generalize containsSub (lowercase name) ("editor".toList) = b5
  cases b1 <;> cases b2 <;> cases b3 <;> cases b4 <;> cases b5 <;> simp

/-- `WorkflowPhase` round-trips through its wire form. -/
theorem decodePhase_encodePhase (ph : WorkflowPhase) :
    decodePhase (encodePhase ph) = .ok ph := by
  cases ph <;> rfl

/-- `CoordinationMessage` round-trips through its wire form whenever its
numeric fields fit their source types. -/
theorem decodeMsg_encodeMsg (m : CoordinationMessage) (h : ValidMsg m) :
    decodeMsg (encodeMsg m) = .ok m := by
  cases m with
  | StartPlanning task_id task_description =>
    simp only [ValidMsg] at h
    have h32 : task_id < 4294967296 := h
    simp [encodeMsg, decodeMsg, reqField, decodeString, decodeU32,
      Except.bind, Except.map, List.lookup, h32]
  | PhaseTransition fromPhase toPhase =>
    simp [encodeMsg, decodeMsg, reqField, Except.bind, Except.map,
      List.lookup, decodePhase_encodePhase]
  | _ => rfl

/-- Claim C2: `parse_incoming_message` attempts the envelope decode first
and returns its result on success; otherwise it attempts the legacy decode
and returns `Legacy` on success; when both decodes fail it returns the
error of the first (envelope) attempt. -/
theorem c2_parse_incoming_order (payload : JsonValue) :
    (∀ envelope, decodeEnvelope payload = .ok envelope →
      parse_incoming_message payload = .ok (.Envelope envelope)) ∧
    (∀ err message, decodeEnvelope payload = .error err →
      decodeMsg payload = .ok message →
      parse_incoming_message payload = .ok (.Legacy message)) ∧
    (∀ err errLegacy, decodeEnvelope payload = .error err →
      decodeMsg payload = .error errLegacy →
      parse_incoming_message payload = .error err) := by
  refine ⟨?_, ?_, ?_⟩
  · intro envelope h
    simp [parse_incoming_message, h]
  · intro err message h hm
    simp [parse_incoming_message, h, hm]
  · intro err errLegacy h hm
    simp [parse_incoming_message, h, hm]

/-- Claim C2, exercised: on `null` both decodes fail and the envelope
attempt's error is returned; a bare variant string parses as Legacy. -/
theorem c2_parse_incoming_order_witness :
    parse_incoming_message .null = .error "invalid type: expected MessageEnvelope" ∧
    parse_incoming_message (.str "StartReview") = .ok (.Legacy .StartReview) := by
  constructor
  · exact (c2_parse_incoming_order .null).2.2 _ _ rfl rfl
  · exact (c2_parse_incoming_order (.str "StartReview")).2.1 _ _ rfl rfl

/-- Claim C3: decoding the encoding of any valid envelope (any target
including broadcast, any message variant, any sender, any u64 timestamp)
returns the envelope with all four fields intact. -/
theorem c3_envelope_roundtrip (e : MessageEnvelope) (h : ValidEnvelope e) :
    decodeEnvelope (encodeEnvelope e) = .ok e := by
  obtain ⟨hmsg, hts⟩ := h
  cases e with
  | mk target_pane coordination_message sender timestamp =>
    simp only [ValidEnvelope] at hmsg hts
    have h64 : timestamp < 18446744073709551616 := hts
    cases target_pane <;>
      simp [encodeEnvelope, decodeEnvelope, decodeTargetPane, reqField,
        decodeString, decodeU64, Except.bind, Except.map, List.lookup,
        decodeMsg_encodeMsg _ hmsg, h64]

/-- Claim C3 at a concrete envelope. -/
theorem c3_envelope_roundtrip_witness :
    decodeEnvelope (encodeEnvelope
      { target_pane := some "overseer",
        coordination_message := .StartPlanning 123 "Test task",
        sender := "cli", timestamp := 1700000000 }) =
    .ok { target_pane := some "overseer",
          coordination_message := .StartPlanning 123 "Test task",
          sender := "cli", timestamp := 1700000000 } :=
  c3_envelope_roundtrip _ ⟨by simp [ValidMsg], by simp⟩

/-- The pane counter of the discovery scan counts the matching panes. -/
theorem discover_foldl_count (l : List PaneInfo) (acc : Registry × Nat) :
    (l.foldl discoverPane acc).2 =
      acc.2 + l.countP (fun p => (match_pane_name_to_role p.title).isSome) := by
  induction l generalizing acc with
  | nil => simp
  | cons p t ih =>
    rw [List.foldl_cons, ih]
    cases hm : match_pane_name_to_role p.title with
    | none => simp [discoverPane, hm, List.countP_cons]
    | some role =>
      simp [discoverPane, hm, List.countP_cons]
      omega

/-- A scan over panes none of which matches a role changes nothing. -/
theorem discover_foldl_id (l : List PaneInfo) (acc : Registry × Nat)
    (h : ∀ p ∈ l, match_pane_name_to_role p.title = none) :
    l.foldl discoverPane acc = acc := by
  induction l generalizing acc with
  | nil => rfl
  | cons p t ih =>
    rw [List.foldl_cons]
    have hp : discoverPane acc p = acc := by
      simp [discoverPane, h p (by simp)]
    rw [hp]
    exact ih acc (fun q hq => h q (by simp [hq]))

/-- A scan that starts from a nonempty registry, or sees at least one
matching pane, ends with a nonempty registry. -/
theorem discover_foldl_nonempty (l : List PaneInfo) (acc : Registry × Nat)
    (h : (∃ r, (acc.1 r).isSome) ∨
      ∃ p ∈ l, (match_pane_name_to_role p.title).isSome) :
    ∃ r, ((l.foldl discoverPane acc).1 r).isSome := by
  induction l generalizing acc with
  | nil =>
    rcases h with h | ⟨p, hp, _⟩
    · simpa using h
    · simp at hp
  | cons p t ih =>
    rw [List.foldl_cons]
    apply ih
    cases hm : match_pane_name_to_role p.title with
    | some role =>
      exact Or.inl ⟨role, by simp [discoverPane, hm, registryInsert]⟩
    | none =>
      rcases h with hacc | ⟨q, hq, hqs⟩
      · exact Or.inl (by simpa [discoverPane, hm] using hacc)
      · rcases List.mem_cons.mp hq with rfl | hq2
        · rw [hm] at hqs
          simp at hqs
        · exact Or.inr ⟨q, hq2, by simpa [discoverPane, hm] using hqs⟩

/-- `discover_panes_with_manifest` in terms of a single scan over the
flattened manifest. -/
theorem discover_eq (reg : Registry) (m : List (List PaneInfo)) :
    discover_panes_with_manifest reg m =
      (if ((m.flatten).foldl discoverPane (emptyRegistry, 0)).2 = 0 then
        (.error (.PaneDiscoveryFailed "No matching panes found in current layout"),
          ((m.flatten).foldl discoverPane (emptyRegistry, 0)).1)
      else (.ok (), ((m.flatten).foldl discoverPane (emptyRegistry, 0)).1)) := by
  simp only [discover_panes_with_manifest, List.foldl_flatten]

/-- Claim C4: discovery clears the registry first (its outcome never
depends on the registry held before the call); when no entry of the
inventory matches any role it fails with `PaneDiscoveryFailed` and leaves
the registry empty; when some entry matches it succeeds and at least one
role is registered; and every failing call leaves the registry empty, so a
discover call either registers at least one role or none. -/
theorem c4_discover_all_or_nothing (reg : Registry)
    (pane_manifest : List (List PaneInfo)) :
    (discover_panes_with_manifest reg pane_manifest =
      discover_panes_with_manifest emptyRegistry pane_manifest) ∧
    ((∀ p ∈ pane_manifest.flatten, match_pane_name_to_role p.title = none) →
      discover_panes_with_manifest reg pane_manifest =
        (.error (.PaneDiscoveryFailed "No matching panes found in current layout"),
          emptyRegistry)) ∧
    ((∃ p ∈ pane_manifest.flatten, (match_pane_name_to_role p.title).isSome) →
      (discover_panes_with_manifest reg pane_manifest).1 = .ok () ∧
      ∃ r, ((discover_panes_with_manifest reg pane_manifest).2 r).isSome) ∧
    (∀ err, (discover_panes_with_manifest reg pane_manifest).1 = .error err →
      err = .PaneDiscoveryFailed "No matching panes found in current layout" ∧
      ∀ r, (discover_panes_with_manifest reg pane_manifest).2 r = none) := by
  refine ⟨by rw [discover_eq, discover_eq], ?_, ?_, ?_⟩
  · intro h
    rw [discover_eq, discover_foldl_id _ _ h]
    rfl
  · intro h
    have hcount : ((pane_manifest.flatten).foldl discoverPane (emptyRegistry, 0)).2 ≠ 0 := by
      rw [discover_foldl_count]
      rcases h with ⟨p, hp, hps⟩
      have hcz : pane_manifest.flatten.countP
          (fun p => (match_pane_name_to_role p.title).isSome) ≠ 0 := by
        intro hz
        rw [List.countP_eq_zero] at hz
        exact absurd hps (by simpa using hz p hp)
      omega
    rw [discover_eq]
    rw [if_neg hcount]
    exact ⟨rfl, discover_foldl_nonempty _ _ (Or.inr h)⟩
  · intro err herr
    by_cases hz : ((pane_manifest.flatten).foldl discoverPane (emptyRegistry, 0)).2 = 0
    · have hall : ∀ p ∈ pane_manifest.flatten,
          match_pane_name_to_role p.title = none := by
        rw [discover_foldl_count] at hz
        have hzz := List.countP_eq_zero.mp (by omega :
          pane_manifest.flatten.countP
            (fun p => (match_pane_name_to_role p.title).isSome) = 0)
        intro p hp
        have hps := hzz p hp
        cases hcase : match_pane_name_to_role p.title with
        | none => rfl
        | some role =>
          rw [hcase] at hps
          simp at hps
      rw [discover_eq, discover_foldl_id _ _ hall] at herr ⊢
      refine ⟨?_, fun r => rfl⟩
      simpa using herr.symm
    · rw [discover_eq, if_neg hz] at herr
      exact absurd herr (by simp)

/-- Claim C4 at the empty inventory: discovery fails and the registry is
left empty. -/
theorem c4_discover_all_or_nothing_witness :
    discover_panes_with_manifest emptyRegistry [] =
      (.error (.PaneDiscoveryFailed "No matching panes found in current layout"),
        emptyRegistry) :=
  (c4_discover_all_or_nothing emptyRegistry []).2.1 (by simp)

/-- Claim C5: routing to an unregistered role fails with `PaneNotFound` of
exactly that role and performs no boundary write; routing to a registered
role serializes the message and performs exactly one write, to the
registered endpoint. -/
theorem c5_route_to_role (reg : Registry) (message : CoordinationMessage)
    (target_role : PaneRole) :
    (reg target_role = none →
      route_message_to_role reg message target_role =
        (.error (.PaneNotFound target_role), [])) ∧
    (∀ pane_id, reg target_role = some pane_id →
      route_message_to_role reg message target_role =
        (.ok (), [(encodeMsg message, pane_id)])) := by
  constructor
  · intro h
    simp [route_message_to_role, h]
  · intro pane_id h
    simp [route_message_to_role, h]

/-- Claim C5 against the empty registry: `PaneNotFound TaskList` and no
write. -/
theorem c5_route_to_role_witness :
    route_message_to_role emptyRegistry .AllTasksComplete .TaskList =
      (.error (.PaneNotFound .TaskList), []) :=
  (c5_route_to_role emptyRegistry .AllTasksComplete .TaskList).1 rfl

/-- Claim C6: the fan-out pairs every input role, in input order, with the
outcome of routing to that role alone (so one role's failure cannot affect
another's attempt), and the number of boundary writes equals the number of
input roles that are registered; with only Overseer and Commander
registered, routing to [Overseer, Commander, TaskList] yields two
successes, one `PaneNotFound TaskList`, and two writes. -/
theorem c6_route_to_roles_fanout (reg : Registry)
    (message : CoordinationMessage) (target_roles : List PaneRole) :
    ((route_message_to_roles reg message target_roles).1 =
      target_roles.map
        (fun role => (role, (route_message_to_role reg message role).1))) ∧
    ((route_message_to_roles reg message target_roles).2.length =
      (target_roles.filter (fun role => (reg role).isSome)).length) ∧
    ((route_message_to_roles
        (registryInsert (registryInsert emptyRegistry .Overseer (.Plugin 1))
          .Commander (.Terminal 2))
        .AllTasksComplete [.Overseer, .Commander, .TaskList]).1 =
      [(.Overseer, .ok ()), (.Commander, .ok ()),
        (.TaskList, .error (.PaneNotFound .TaskList))]) ∧
    ((route_message_to_roles
        (registryInsert (registryInsert emptyRegistry .Overseer (.Plugin 1))
          .Commander (.Terminal 2))
        .AllTasksComplete [.Overseer, .Commander, .TaskList]).2.length = 2) := by
  refine ⟨?_, ?_, rfl, rfl⟩
  · induction target_roles with
    | nil => rfl
    | cons r t ih =>
      simp [route_message_to_roles, ih]
  · induction target_roles with
    | nil => rfl
    | cons r t ih =>
      cases h : reg r <;>
        simp [route_message_to_roles, route_message_to_role, h, ih,
          List.filter_cons]

/-- Claim C7: the store's failure classification marks would-block
(concurrent access) and interrupted operations as transient and everything
else as terminal; a terminal failure is returned after exactly one attempt
with no sleep; an always-transient operation is retried up to the attempt
cap with linear backoff sleeps and, the time budget not being exhausted by
those sleeps, the last transient error (never `Timeout`) is returned. -/
theorem c7_with_retry_policy (operation : Nat → Except FileSystemError Unit) :
    (∀ k, retryable (fromIoErrorKind k) = true ↔
      (k = .WouldBlock ∨ k = .Interrupted)) ∧
    (∀ e, operation 0 = .error e → retryable e = false →
      with_retry operation = (.error e, 1, [])) ∧
    ((∀ k, k ≤ MAX_RETRIES → ∃ e, operation k = .error e ∧ retryable e = true) →
      ∃ e, operation MAX_RETRIES = .error e ∧ e ≠ .Timeout ∧
        with_retry operation =
          (.error e, MAX_RETRIES + 1,
            [RETRY_DELAY * 1, RETRY_DELAY * 2, RETRY_DELAY * 3])) := by
  refine ⟨?_, ?_, ?_⟩
  · intro k
    cases k <;> simp [retryable, fromIoErrorKind]
  · intro e h0 hr
    unfold with_retry with_retry_go
    simp [OPERATION_TIMEOUT, MAX_RETRIES, h0, hr]
  · intro h
    obtain ⟨e0, h0, r0⟩ := h 0 (by norm_num [MAX_RETRIES])
    obtain ⟨e1, h1, r1⟩ := h 1 (by norm_num [MAX_RETRIES])
    obtain ⟨e2, h2, r2⟩ := h 2 (by norm_num [MAX_RETRIES])
    obtain ⟨e3, h3, r3⟩ := h 3 (by norm_num [MAX_RETRIES])
    refine ⟨e3, by simpa [MAX_RETRIES] using h3, ?_, ?_⟩
    · intro hT
      rw [hT] at r3
      simp [retryable] at r3
    · simp [with_retry, with_retry_go, OPERATION_TIMEOUT, MAX_RETRIES,
        RETRY_DELAY, h0, r0, h1, r1, h2, r2, h3, r3]

/-- Claim C7 exercised: permission denied is terminal after one attempt;
an operation that keeps failing with the concurrent-access error is
attempted four times with sleeps of 50, 100 and 150 ms and the last
transient error is returned. -/
theorem c7_with_retry_policy_witness :
    with_retry (fun _ => (.error .PermissionDenied : Except FileSystemError Unit)) =
      (.error .PermissionDenied, 1, []) ∧
    with_retry (fun _ => (.error .ConcurrentAccess : Except FileSystemError Unit)) =
      (.error .ConcurrentAccess, 4, [50, 100, 150]) := by
  constructor
  · exact (c7_with_retry_policy _).2.1 .PermissionDenied rfl rfl
  · obtain ⟨e, he, _, hr⟩ := (c7_with_retry_policy
      (fun _ => (.error .ConcurrentAccess : Except FileSystemError Unit))).2.2
      (fun k _ => ⟨.ConcurrentAccess, rfl, rfl⟩)
    have hce : FileSystemError.ConcurrentAccess = e := by
      simpa using he
    rw [← hce] at hr
    simpa [MAX_RETRIES, RETRY_DELAY] using hr

/-- Claim C8: for every numeric task id the derived paths form
`/host/.zzz/task-<id>/` with children todo-list.md, plan.md, review.md and
a logs/ directory holding overseer.log, commander.log and coordinator.log,
all under the one fixed root `/host/.zzz` (the derivation is a pure
function of the id: these are equalities of strings, no filesystem state
is involved). -/
theorem c8_path_derivation (task_id : Nat) :
    get_task_directory_path task_id = "/host/.zzz/task-" ++ toString task_id ∧
    get_todo_list_path task_id =
      get_task_directory_path task_id ++ "/todo-list.md" ∧
    get_plan_path task_id = get_task_directory_path task_id ++ "/plan.md" ∧
    get_review_path task_id = get_task_directory_path task_id ++ "/review.md" ∧
    get_logs_dir_path task_id = get_task_directory_path task_id ++ "/logs" ∧
    get_overseer_log_path task_id = get_logs_dir_path task_id ++ "/overseer.log" ∧
    get_commander_log_path task_id = get_logs_dir_path task_id ++ "/commander.log" ∧
    get_coordinator_log_path task_id = get_logs_dir_path task_id ++ "/coordinator.log" := by
  refine ⟨?_, ?_, ?_, ?_, ?_, ?_, ?_, ?_⟩ <;>
    · apply String.ext
      simp [get_task_directory_path, get_todo_list_path, get_plan_path,
        get_review_path, get_logs_dir_path, get_overseer_log_path,
        get_commander_log_path, get_coordinator_log_path, pathJoin]

/-- Claim C9: after a successful atomic write, reading the target path
returns exactly the written content, and (whenever the temporary sibling is
a distinct path, i.e. the target's extension is not already "tmp") no
temporary file remains — it has been renamed over the final path. -/
theorem c9_atomic_write_read (fs : FileState) (path content : String) :
    read_file_safe (write_file_atomic fs path content) path = .ok content ∧
    (with_extension path "tmp" ≠ path →
      write_file_atomic fs path content (with_extension path "tmp") = none) := by
  constructor
  · simp [read_file_safe, write_file_atomic]
  · intro h
    simp [write_file_atomic, h, Ne.symm h]

/-- Claim C9 at a concrete state: write then read on `task-1/plan.md`. -/
theorem c9_atomic_write_read_witness :
    read_file_safe
      (write_file_atomic (fun _ => none) "task-1/plan.md" "the plan")
      "task-1/plan.md" = .ok "the plan" ∧
    write_file_atomic (fun _ => none) "task-1/plan.md" "the plan"
      (with_extension "task-1/plan.md" "tmp") = none := by
  constructor
  · exact (c9_atomic_write_read (fun _ => none) "task-1/plan.md" "the plan").1
  · exact (c9_atomic_write_read (fun _ => none) "task-1/plan.md" "the plan").2
      (by decide)

/-- Claim C10: the temporary path of an atomic write replaces the target's
extension with "tmp" rather than appending it — `task-1/plan.md` uses the
sibling `task-1/plan.tmp` — so two targets with the same directory part and
the same stem use the same temporary path. -/
theorem c10_temp_path_replaces_extension (p1 p2 : String)
    (hdir : dirPartOf p1.toList = dirPartOf p2.toList)
    (hstem : stemOf (fileNameOf p1.toList) = stemOf (fileNameOf p2.toList)) :
    with_extension p1 "tmp" = with_extension p2 "tmp" ∧
    with_extension "task-1/plan.md" "tmp" = "task-1/plan.tmp" := by
  constructor
  · simp only [with_extension]
    rw [hdir, hstem]
  · decide

/-- Claim C10 at two concrete targets differing only in their extension. -/
theorem c10_temp_path_replaces_extension_witness :
    with_extension "task-1/plan.md" "tmp" = with_extension "task-1/plan.txt" "tmp" ∧
    with_extension "task-1/plan.md" "tmp" = "task-1/plan.tmp" :=
  c10_temp_path_replaces_extension "task-1/plan.md" "task-1/plan.txt"
    (by decide) (by decide)

end Zzz
